import Mathlib

/-!
Verification development for the multi-agent coding framework.

The definitions below are a shallow embedding of the pipeline orchestrator
(`src/orchestrator.py`) and of the call boundary between the orchestrator
and the coding agent (`src/agents/coding_agent.py`).  External agent calls
(text generation, review, documentation, tests, deployment) are modelled as
environment parameters recording the outcome of each call; the control flow
of the orchestrator itself is translated statement by statement.
-/

namespace MultiAgent

/-- Substring test on character lists: does `needle` occur inside `hay`?
Models Python's `needle in hay` on strings. -/
def hasSubstr : (hay needle : List Char) → Bool
  | [], needle => needle.isEmpty
  | hay@(_ :: t), needle => needle.isPrefixOf hay || hasSubstr t needle

/-- Python `needle in hay` for strings. -/
def strContains (hay needle : String) : Bool :=
  hasSubstr hay.data needle.data

/-- Python `s.lower()`: per-character lowercasing (all keyword comparisons
in the source are ASCII). -/
def strLower (s : String) : String := ⟨s.data.map Char.toLower⟩

/-- Positive-sentiment keyword list of `_score_code_quality`
(orchestrator.py lines 529-533). -/
def positiveKeywords : List String :=
  ["well-structured", "good", "excellent", "proper", "correct",
   "meets requirements", "complete", "follows", "adheres",
   "appropriate", "adequate", "suitable", "functional"]

/-- Negative-sentiment keyword list of `_score_code_quality`
(orchestrator.py lines 547-550). -/
def negativeKeywords : List String :=
  ["missing", "error", "bug", "incorrect", "wrong",
   "does not", "fails", "incomplete", "lacks"]

/-- The strong-signal keywords of `_score_code_quality`
(orchestrator.py lines 539-544). -/
def strongKeywords : List String :=
  ["approved", "approve", "meets all", "fully meets",
   "production-ready", "production ready"]

/-- Number of keywords from `kws` occurring in `text`. -/
def countKw (text : String) (kws : List String) : Nat :=
  kws.countP (fun k => strContains text k)

/-- Core of `_score_code_quality` after the feedback text has been
lowercased (orchestrator.py lines 523-568).  The per-keyword `score += 5`
loop over the positive list adds 5 per matched keyword, and likewise −3 per
matched negative keyword; all increments in the source are whole numbers,
so the Python float is modelled as an integer.  The structural checks are
performed on the raw code text, exactly as in the source. -/
def scoreFromLower (fl : String) (code : String) : Int :=
  max 0 (min 100 (
    50 + 5 * (countKw fl positiveKeywords : Int)
    + (if strContains fl "approved" || strContains fl "approve" then 20 else 0)
    + (if strContains fl "meets all" || strContains fl "fully meets" then 15 else 0)
    + (if strContains fl "production-ready" || strContains fl "production ready" then 10 else 0)
    - 3 * (countKw fl negativeKeywords : Int)
    + (if strContains code "def " && strContains code "class " then 5 else 0)
    + (if strContains code "import " then 2 else 0)
    + (if code.length > 1000 then 3 else 0)
    + (if strContains code "try:" || strContains code "except" then 3 else 0)))

/-- The scorer `Orchestrator._score_code_quality(feedback, code)`
(orchestrator.py lines 512-568): lowercases the feedback, then scores. -/
def scoreCodeQuality (feedback code : String) : Int :=
  scoreFromLower (strLower feedback) code

/-- One agent invocation made by the orchestrator.  The documentation,
test-generation and deployment entries record the code value held in
pipeline state at the moment of the call. -/
inductive AgentCall where
  | analyze (input : String)
  | genCall (iteration : Nat)
  | revCall (iteration : Nat) (code : String)
  | doc (code : Option String)
  | test (code : Option String)
  | deploy (code : Option String)
deriving DecidableEq, Repr

/-- Outcomes of the external calls made inside `_generate_and_review_code`:
`stop i` is the value of `stop_check()` at the top of iteration `i`;
`gen i` is the outcome of the code-generation retry block of iteration `i`
(`.error e` when all retries are exhausted with final exception message
`e`); `rev i code` is the outcome of the review retry block (a review
failure is already folded into `(false, "Review error: …")` by the source,
lines 473-480, so the outcome is total). -/
structure LoopEnv where
  stop : Nat → Bool
  gen : Nat → Except String String
  rev : Nat → String → Bool × String

/-- Mutable locals of `_generate_and_review_code`
(orchestrator.py lines 396-400). -/
structure LoopState where
  feedbacks : List String
  feedback : Option String
  bestCode : Option String
  bestScore : Int
  bestIter : Nat

/-- Initial locals (orchestrator.py lines 396-400):
`review_feedbacks = []`, `feedback = None`, `best_code = None`,
`best_code_score = -1`, `best_iteration = 0`. -/
def initLoopState : LoopState := ⟨[], none, none, -1, 0⟩

/-- What the iteration loop returns, together with its observable activity:
the agent calls it made and the number of `stop_check()` polls. -/
structure LoopOut where
  code : Option String
  feedbacks : List String
  trace : List AgentCall
  checks : Nat
deriving DecidableEq, Repr

/-- The synthetic system note appended when the iteration budget is
exhausted with a usable best candidate (orchestrator.py lines 502-506). -/
def sysNote (maxIter bestIter : Nat) : String :=
  "[SYSTEM] Maximum iterations (" ++ toString maxIter ++
  ") reached. Using best code generated (iteration " ++ toString bestIter ++
  "). Pipeline will continue with all remaining steps."

/-- The generation and review calls of one loop round. -/
def roundCalls (c : Nat → String) (i : Nat) : List AgentCall :=
  [.genCall i, .revCall i (c i)]

/-- Python's `not s or not s.strip()`: true exactly when the string is
empty or whitespace-only. -/
def pyStripEmpty (s : String) : Bool := s.data.all Char.isWhitespace

/-- Body of the `for iteration in range(max_iterations)` loop of
`_generate_and_review_code` (orchestrator.py lines 402-510), written with
explicit fuel (`fuel` = rounds remaining, `i` = current iteration index).
A retry-exhausted generation appends the "Code generation error" entry
(line 442) and then, since `code` is still `None`, also the
"Code generation returned empty result" entry (line 445) before
continuing.  An approved round returns that round's code at once. -/
def loopAux (env : LoopEnv) (maxIter : Nat) : Nat → Nat → LoopState → LoopOut
  | 0, _, st =>
    match st.bestCode with
    | some b => ⟨some b, st.feedbacks ++ [sysNote maxIter st.bestIter], [], 0⟩
    | none => ⟨none, st.feedbacks, [], 0⟩
  | fuel + 1, i, st =>
    if env.stop i then ⟨st.bestCode, st.feedbacks, [], 1⟩
    else
      match env.gen i with
      | .error e =>
        let st1 : LoopState := { st with feedbacks :=
          st.feedbacks ++ ["Code generation error: " ++ e,
                           "Code generation returned empty result"] }
        let out := loopAux env maxIter fuel (i + 1) st1
        ⟨out.code, out.feedbacks, .genCall i :: out.trace, out.checks + 1⟩
      | .ok c =>
        if pyStripEmpty c then
          let st1 : LoopState := { st with feedbacks :=
            st.feedbacks ++ ["Code generation returned empty result"] }
          let out := loopAux env maxIter fuel (i + 1) st1
          ⟨out.code, out.feedbacks, .genCall i :: out.trace, out.checks + 1⟩
        else
          let pr := env.rev i c
          let sc := scoreCodeQuality pr.2 c
          let nb : Option String × Int × Nat :=
            if st.bestCode = none ∨ st.bestScore < sc then (some c, sc, i + 1)
            else (st.bestCode, st.bestScore, st.bestIter)
          if pr.1 then
            ⟨some c, st.feedbacks ++ [pr.2], [.genCall i, .revCall i c], 1⟩
          else
            let st3 : LoopState :=
              ⟨st.feedbacks ++ [pr.2], some pr.2, nb.1, nb.2.1, nb.2.2⟩
            let out := loopAux env maxIter fuel (i + 1) st3
            ⟨out.code, out.feedbacks,
              .genCall i :: .revCall i c :: out.trace, out.checks + 1⟩

/-- The loop `Orchestrator._generate_and_review_code` (orchestrator.py
lines 372-510), with the agent-call outcomes supplied by `env`. -/
def runLoop (env : LoopEnv) (maxIter : Nat) : LoopOut :=
  loopAux env maxIter maxIter 0 initLoopState

/-- The best-candidate update of one reviewed round (orchestrator.py lines
485-489): the accumulator `(best_code, best_code_score, best_iteration)`
is replaced exactly when no best exists yet or the new score strictly
exceeds the stored one. -/
def bestStep (c f : Nat → String) (acc : Option String × Int × Nat) (r : Nat) :
    Option String × Int × Nat :=
  if acc.1 = none ∨ acc.2.1 < scoreCodeQuality (f r) (c r) then
    (some (c r), scoreCodeQuality (f r) (c r), r + 1)
  else acc

/-- The best-candidate accumulator after the rounds `i, …, i + fuel - 1`. -/
def bestAcc (c f : Nat → String) (i fuel : Nat) (acc : Option String × Int × Nat) :
    Option String × Int × Nat :=
  (List.range' i fuel).foldl (bestStep c f) acc

/-- The post-loop synthetic note (orchestrator.py lines 500-507): appended
exactly when a best candidate exists. -/
def finishNote (maxIter : Nat) (fin : Option String × Int × Nat) : List String :=
  match fin.1 with
  | some _ => [sysNote maxIter fin.2.2]
  | none => []

/-! ### The pipeline (`Orchestrator.execute_pipeline`) -/

/-- The structured requirements record (see `execute_pipeline`'s fallback
construction, orchestrator.py lines 197-202). -/
structure Requirements where
  functional : List String
  nonFunctional : List String
  assumptions : List String
  constraints : List String
deriving DecidableEq, Repr

/-- The `results` dictionary built by `execute_pipeline`
(orchestrator.py lines 141-152).  `execution_time` is wall-clock time and
is not modelled.  The deployment configuration is an ordered key/value
mapping so that its key set is observable. -/
structure Results where
  user_input : String
  requirements : Option Requirements
  code : Option String
  review_feedback : List String
  documentation : Option String
  test_cases : Option String
  deployment_config : Option (List (String × String))
  iterations : Nat
  status : String
  error : Option String
deriving DecidableEq, Repr

/-- What one pipeline run produces: the results record, the final
`completed_steps` sequence of the pipeline state, and the ordered list of
agent invocations that were made. -/
structure PipeOut where
  results : Results
  completedSteps : List String
  calls : List AgentCall
deriving DecidableEq, Repr

/-- Outcomes of the external calls of one pipeline run.  `stop n` is the
value returned by the `n`-th `stop_check()` poll (polls are numbered in
call order, the three pre-loop polls being 0, 1, 2 and the in-loop poll of
iteration `i` being `3 + i`); the remaining fields are the outcomes of the
agent calls, `.error` meaning the call raised. -/
structure PipelineEnv where
  stop : Nat → Bool
  reqResult : Except String Requirements
  gen : Nat → Except String String
  rev : Nat → String → Bool × String
  docResult : Except String String
  testResult : Except String String
  deployResult : Except String (List (String × String))

/-- The loop environment that `execute_pipeline` hands to
`_generate_and_review_code`: the loop's stop polls continue the global
numbering after the three pre-loop polls. -/
def loopEnvOf (env : PipelineEnv) : LoopEnv :=
  ⟨fun i => env.stop (3 + i), env.gen, env.rev⟩

/-- The fallback requirements record synthesized when requirement analysis
raises (orchestrator.py lines 197-202). -/
def fallbackRequirements (input : String) : Requirements :=
  ⟨[input],
   ["Code should be efficient, readable, and maintainable"],
   ["Standard Python environment"],
   []⟩

/-- The documentation placeholder substituted when the documentation agent
raises (orchestrator.py line 283). -/
def docFallback (e : String) : String :=
  "# Documentation Generation Error\n\nAn error occurred during documentation generation: "
    ++ e ++ "\n\nCode was successfully generated but documentation could not be created."

/-- The test placeholder substituted when the test agent raises
(orchestrator.py line 315). -/
def testFallback (e : String) : String :=
  "# Test Generation Error\n\n# An error occurred during test generation: " ++ e
    ++ "\n# Code was successfully generated but test cases could not be created.\n\nimport pytest\n\n# Placeholder test - replace with actual tests\ndef test_placeholder():\n    assert True"

/-- The deployment placeholder substituted when the deployment agent raises
(orchestrator.py lines 347-352).  Note its keys: `github_push` and
`hosting_platforms` appear instead of the `run_script` key that the
deployment agent's parsed output carries. -/
def deployFallback : List (String × String) :=
  [("requirements",
    "python-dotenv>=1.0.0\npyautogen==0.2.28\nopenai>=1.0.0\nstreamlit>=1.28.0\npytest>=7.4.0"),
   ("setup_instructions",
    "1. Install Python 3.10+\n2. Create virtual environment: python -m venv venv\n3. Activate: source venv/bin/activate (Linux/Mac) or venv\\Scripts\\activate (Windows)\n4. Install: pip install -r requirements.txt\n5. Run: python app.py"),
   ("github_push",
    "1. Initialize git: git init\n2. Create .gitignore file\n3. Add files: git add .\n4. Commit: git commit -m \x27Initial commit\x27\n5. Create GitHub repo and push"),
   ("hosting_platforms",
    "Recommended: Heroku, Railway, or Render for easy deployment")]

/-- The shape of `DeploymentAgent._parse_deployment_output`'s return value
(deployment_agent.py lines 139-143): the agent's successful output is a
mapping with exactly the keys `requirements`, `setup_instructions`,
`run_script`. -/
def parsedDeploymentKeys : List String :=
  ["requirements", "setup_instructions", "run_script"]

/-- The initial results record of `execute_pipeline`
(orchestrator.py lines 141-152). -/
def initResults (input : String) : Results :=
  ⟨input, none, none, [], none, none, none, 0, "pending", none⟩

/-- The requirements value held in pipeline state after stage 1: the
agent's output, or the fallback on failure (orchestrator.py lines 190-204). -/
def reqsOf (env : PipelineEnv) (input : String) : Requirements :=
  match env.reqResult with
  | .ok r => r
  | .error _ => fallbackRequirements input

/-- The documentation value after stage 4 (orchestrator.py lines 273-286). -/
def docOf (env : PipelineEnv) : String :=
  match env.docResult with
  | .ok d => d
  | .error e => docFallback e

/-- The test-case value after stage 5 (orchestrator.py lines 305-318). -/
def testsOf (env : PipelineEnv) : String :=
  match env.testResult with
  | .ok t => t
  | .error e => testFallback e

/-- The validation error message raised for empty input
(orchestrator.py line 174), preserved into `results["error"]` by the
boundary handler (lines 362-364). -/
def emptyInputMsg : String :=
  "User input cannot be empty. Please provide software requirements."

/-- The error message recorded when the loop produces no code
(orchestrator.py line 245). -/
def noCodeMsg : String :=
  "Code generation failed - no code was generated after maximum iterations"

/-- The pipeline `Orchestrator.execute_pipeline` (orchestrator.py lines 112-370) with
the agent-call outcomes supplied by `env` and `max_iterations` as a
parameter.  Stage order, the stop polls, the per-stage fallback policies
and the status transitions are translated branch by branch. -/
def execute_pipeline (env : PipelineEnv) (maxIter : Nat) (input : String) : PipeOut :=
  let r0 := initResults input
  if env.stop 0 then ⟨{ r0 with status := "stopped" }, [], []⟩
  else if pyStripEmpty input then
    ⟨{ r0 with status := "error", error := some emptyInputMsg }, [], []⟩
  else if env.stop 1 then ⟨{ r0 with status := "stopped" }, [], []⟩
  else
    let r1 := { r0 with requirements := some (reqsOf env input) }
    if env.stop 2 then
      ⟨{ r1 with status := "stopped" }, ["requirement_analysis"], [.analyze input]⟩
    else
      let lo := runLoop (loopEnvOf env) maxIter
      let r2 := { r1 with code := lo.code, review_feedback := lo.feedbacks,
                          iterations := lo.feedbacks.length }
      let steps2 := ["requirement_analysis", "code_generation", "code_review"]
      let calls2 := AgentCall.analyze input :: lo.trace
      match lo.code with
      | none =>
        ⟨{ r2 with status := "failed", error := some noCodeMsg }, steps2, calls2⟩
      | some _ =>
        if env.stop (3 + lo.checks) then
          ⟨{ r2 with status := "stopped" }, steps2, calls2⟩
        else
          let r3 := { r2 with documentation := some (docOf env) }
          let steps3 := steps2 ++ ["documentation"]
          let calls3 := calls2 ++ [AgentCall.doc lo.code]
          if env.stop (4 + lo.checks) then
            ⟨{ r3 with status := "stopped" }, steps3, calls3⟩
          else
            let r4 := { r3 with test_cases := some (testsOf env) }
            let steps4 := steps3 ++ ["test_generation"]
            let calls4 := calls3 ++ [AgentCall.test lo.code]
            if env.stop (5 + lo.checks) then
              ⟨{ r4 with status := "stopped" }, steps4, calls4⟩
            else
              match env.deployResult with
              | .ok d =>
                ⟨{ r4 with deployment_config := some d, status := "completed" },
                  steps4 ++ ["deployment"], calls4 ++ [AgentCall.deploy lo.code]⟩
              | .error _ =>
                ⟨{ r4 with deployment_config := some deployFallback, status := "completed" },
                  steps4, calls4 ++ [AgentCall.deploy lo.code]⟩

/-! ### The orchestrator → coding-agent call boundary -/

/-- A Python call site: how many positional arguments are supplied and
which keyword names are used. -/
structure PyCallArgs where
  positionalCount : Nat
  keywordNames : List String
deriving DecidableEq, Repr

/-- Python argument binding for a simple parameter list (no `*args` or
`**kwargs`): every positional argument must land in a slot, every keyword
must name a parameter, and no keyword may rebind a positionally filled
slot or repeat. -/
def bindOk (params : List String) (args : PyCallArgs) : Bool :=
  args.positionalCount ≤ params.length &&
  args.keywordNames.all (fun k =>
    (params.indexOf k < params.length) &&
    (args.positionalCount ≤ params.indexOf k)) &&
  args.keywordNames.Nodup

/-- The non-`self` parameter list of `CodingAgent.generate_code`
(coding_agent.py line 60): `(requirements, feedback=None)` — there is no
`previous_code` parameter. -/
def generateCodeParams : List String := ["requirements", "feedback"]

/-- The orchestrator's call to `generate_code` (orchestrator.py line 434):
two positional arguments plus the keyword `previous_code` — the keyword is
present on every round, whatever value `code_to_pass` holds. -/
def orchestratorGenCallArgs : PyCallArgs := ⟨2, ["previous_code"]⟩

/-- Outcome of a Python call: successful return, a `TypeError` raised at
argument binding before the body runs, or an exception from the body. -/
inductive PyOutcome (α : Type) where
  | ok (a : α)
  | typeError
  | raised (msg : String)
deriving DecidableEq, Repr

/-- Calling `generate_code`: binding is checked first; only if it succeeds
does the agent body run (its outcome given by `agentBody`). -/
def callGenerateCode (agentBody : Except String String) (args : PyCallArgs) :
    PyOutcome String :=
  if bindOk generateCodeParams args then
    match agentBody with
    | .ok c => .ok c
    | .error e => .raised e
  else .typeError

/-- Python truthiness of an optional string (`None` and `""` are falsy). -/
def pyTruthyOpt : Option String → Bool
  | none => false
  | some s => !(s == "")

/-- The `code_to_pass` selection (orchestrator.py line 433):
`previous_code if (iteration == 0 and not feedback and previous_code) else None`. -/
def codeToPass (iteration : Nat) (feedback : Option String)
    (previousCode : Option String) : Option String :=
  if iteration == 0 && !(pyTruthyOpt feedback) && pyTruthyOpt previousCode then
    previousCode
  else none

/-! ### Concrete environments used for witnesses and counterexamples -/

/-- A loop environment whose code generation always exhausts its retries. -/
def allFailLoopEnv : LoopEnv :=
  ⟨fun _ => false, fun _ => .error "boom", fun _ _ => (false, "")⟩

/-- A pipeline environment in which everything succeeds except the
deployment agent, which raises. -/
def deployFailEnv : PipelineEnv :=
  ⟨fun _ => false, .ok ⟨["task"], [], [], []⟩,
   fun _ => .ok "print(1)", fun _ _ => (true, "APPROVED"),
   .ok "docs", .ok "tests", .error "deploy boom"⟩

/-- A pipeline environment in which every agent call succeeds. -/
def allOkEnv : PipelineEnv :=
  ⟨fun _ => false, .ok ⟨["task"], [], [], []⟩,
   fun _ => .ok "print(1)", fun _ _ => (true, "APPROVED"),
   .ok "docs", .ok "tests",
   .ok [("requirements", "r"), ("setup_instructions", "s"), ("run_script", "x")]⟩

/-- A pipeline environment identical to `allOkEnv` except that the stop
check returns true exactly at poll number `k`. -/
def stopAtEnv (k : Nat) : PipelineEnv :=
  ⟨fun n => n == k, .ok ⟨["task"], [], [], []⟩,
   fun _ => .ok "print(1)", fun _ _ => (true, "APPROVED"),
   .ok "docs", .ok "tests",
   .ok [("requirements", "r"), ("setup_instructions", "s"), ("run_script", "x")]⟩

/-- A pipeline environment whose review agent never approves, while every
other call succeeds. -/
def noApproveEnv : PipelineEnv :=
  ⟨fun _ => false, .ok ⟨["task"], [], [], []⟩,
   fun _ => .ok "x = 1", fun _ _ => (false, "bad"),
   .ok "docs", .ok "tests",
   .ok [("requirements", "r"), ("setup_instructions", "s"), ("run_script", "x")]⟩

/-- A pipeline environment whose coding agent always fails and whose other
agents succeed. -/
def genFailEnv : PipelineEnv :=
  ⟨fun _ => false, .ok ⟨["task"], [], [], []⟩,
   fun _ => .error "boom", fun _ _ => (false, ""),
   .ok "docs", .ok "tests",
   .ok [("requirements", "r"), ("setup_instructions", "s"), ("run_script", "x")]⟩

/-- Reference definition of the scorer, written from the specification text
(§4.3): start at baseline 50; +5 per matched positive keyword; +20 if
approved/approve appears; +15 for meets all/fully meets; +10 for
production-ready/production ready; −3 per matched negative keyword; then
structural bonuses +5 (function and class markers), +2 (import marker),
+3 (length over 1000), +3 (exception-handling markers); clamp to [0, 100];
case-insensitive on the feedback text. -/
def scoreSpecRef (feedback code : String) : Int :=
  let fl := strLower feedback
  let positives : Int := 5 * (countKw fl positiveKeywords : Int)
  let strongBonus : Int :=
    (if strContains fl "approved" || strContains fl "approve" then 20 else 0)
    + (if strContains fl "meets all" || strContains fl "fully meets" then 15 else 0)
    + (if strContains fl "production-ready" || strContains fl "production ready" then 10 else 0)
  let negatives : Int := 3 * (countKw fl negativeKeywords : Int)
  let structural : Int :=
    (if strContains code "def " && strContains code "class " then 5 else 0)
    + (if strContains code "import " then 2 else 0)
    + (if code.length > 1000 then 3 else 0)
    + (if strContains code "try:" || strContains code "except" then 3 else 0)
  max 0 (min 100 (50 + positives + strongBonus - negatives + structural))

theorem scoreCodeQuality_eq_ref (feedback code : String) :
    scoreCodeQuality feedback code = scoreSpecRef feedback code := by
  unfold scoreCodeQuality scoreSpecRef scoreFromLower
  ring_nf

theorem scoreFromLower_bounds (fl code : String) :
    0 ≤ scoreFromLower fl code ∧ scoreFromLower fl code ≤ 100 := by
  unfold scoreFromLower
  constructor
  · exact le_max_left _ _
  · exact max_le (by norm_num) (min_le_left _ _)

/-- Bonus summands are monotone when the trigger condition is implied. -/
theorem iteBonusMono {a b : Bool} (n : Int) (hn : 0 ≤ n) (h : a = true → b = true) :
    (if a then n else 0) ≤ (if b then n else 0) := by
  cases a <;> cases b <;> simp_all

theorem scoreFromLower_mono (f1 f2 code : String)
    (hpos : ∀ k ∈ positiveKeywords, strContains f1 k = true → strContains f2 k = true)
    (hneg : ∀ k ∈ negativeKeywords, strContains f2 k = true → strContains f1 k = true)
    (hstrong : ∀ k ∈ strongKeywords, strContains f1 k = true → strContains f2 k = true) :
    scoreFromLower f1 code ≤ scoreFromLower f2 code := by
  have hp : countKw f1 positiveKeywords ≤ countKw f2 positiveKeywords :=
    List.countP_mono_left (by intro k hk h; exact hpos k hk h)
  have hn : countKw f2 negativeKeywords ≤ countKw f1 negativeKeywords :=
    List.countP_mono_left (by intro k hk h; exact hneg k hk h)
  have hor : ∀ k1 k2, k1 ∈ strongKeywords → k2 ∈ strongKeywords →
      (strContains f1 k1 || strContains f1 k2) = true →
      (strContains f2 k1 || strContains f2 k2) = true := by
    intro k1 k2 h1 h2 h
    rcases Bool.or_eq_true_iff.mp h with h | h
    · exact Bool.or_eq_true_iff.mpr (Or.inl (hstrong _ h1 h))
    · exact Bool.or_eq_true_iff.mpr (Or.inr (hstrong _ h2 h))
  have hb1 := iteBonusMono (a := strContains f1 "approved" || strContains f1 "approve")
    (b := strContains f2 "approved" || strContains f2 "approve") 20 (by norm_num)
    (hor _ _ (by simp [strongKeywords]) (by simp [strongKeywords]))
  have hb2 := iteBonusMono (a := strContains f1 "meets all" || strContains f1 "fully meets")
    (b := strContains f2 "meets all" || strContains f2 "fully meets") 15 (by norm_num)
    (hor _ _ (by simp [strongKeywords]) (by simp [strongKeywords]))
  have hb3 := iteBonusMono
    (a := strContains f1 "production-ready" || strContains f1 "production ready")
    (b := strContains f2 "production-ready" || strContains f2 "production ready") 10 (by norm_num)
    (hor _ _ (by simp [strongKeywords]) (by simp [strongKeywords]))
  have hpi : (countKw f1 positiveKeywords : Int) ≤ (countKw f2 positiveKeywords : Int) := by
    exact_mod_cast hp
  have hni : (countKw f2 negativeKeywords : Int) ≤ (countKw f1 negativeKeywords : Int) := by
    exact_mod_cast hn
  unfold scoreFromLower
  refine max_le_max (le_refl 0) (min_le_min (le_refl 100) ?_)
  omega

/-- C6: the quality scorer is pure and deterministic (a function), equal to
the reference definition drawn from the specification, insensitive to the
case of the feedback text, always within [0, 100], and monotone in keyword
matches: adding positive/strong matches or removing negative matches never
lowers the score (code text fixed). -/
theorem C6_quality_scorer :
    (∀ f c, scoreCodeQuality f c = scoreSpecRef f c) ∧
    (∀ f g c, strLower f = strLower g → scoreCodeQuality f c = scoreCodeQuality g c) ∧
    (∀ f c, 0 ≤ scoreCodeQuality f c ∧ scoreCodeQuality f c ≤ 100) ∧
    (∀ f1 f2 c,
      (∀ k ∈ positiveKeywords,
          strContains (strLower f1) k = true → strContains (strLower f2) k = true) →
      (∀ k ∈ negativeKeywords,
          strContains (strLower f2) k = true → strContains (strLower f1) k = true) →
      (∀ k ∈ strongKeywords,
          strContains (strLower f1) k = true → strContains (strLower f2) k = true) →
      scoreCodeQuality f1 c ≤ scoreCodeQuality f2 c) := by
  refine ⟨scoreCodeQuality_eq_ref, ?_, ?_, ?_⟩
  · intro f g c h
    unfold scoreCodeQuality
    rw [h]
  · intro f c
    exact scoreFromLower_bounds _ _
  · intro f1 f2 c hpos hneg hstrong
    exact scoreFromLower_mono _ _ _ hpos hneg hstrong

/-- Witness for C6 at concrete inputs: the monotonicity clause applied to
feedbacks "Good" and "good excellent" over empty code. -/
theorem C6_quality_scorer_witness :
    scoreCodeQuality "Good" "" ≤ scoreCodeQuality "good excellent" "" :=
  C6_quality_scorer.2.2.2 "Good" "good excellent" ""
    (by decide) (by decide) (by decide)

/-- Unfolding `loopAux` when the stop check fires. -/
theorem loopAux_step_stop (env : LoopEnv) (maxIter fuel i : Nat) (st : LoopState)
    (hs : env.stop i = true) :
    loopAux env maxIter (fuel + 1) i st = ⟨st.bestCode, st.feedbacks, [], 1⟩ := by
  simp [loopAux, hs]

/-- Unfolding `loopAux` when code generation exhausts its retries. -/
theorem loopAux_step_genfail (env : LoopEnv) (maxIter fuel i : Nat) (st : LoopState)
    (e : String) (hs : env.stop i = false) (hg : env.gen i = .error e) :
    loopAux env maxIter (fuel + 1) i st =
      (let out := loopAux env maxIter fuel (i + 1)
        ⟨st.feedbacks ++ ["Code generation error: " ++ e,
                          "Code generation returned empty result"],
          st.feedback, st.bestCode, st.bestScore, st.bestIter⟩
       ⟨out.code, out.feedbacks, .genCall i :: out.trace, out.checks + 1⟩) := by
  simp [loopAux, hs, hg]

/-- Unfolding `loopAux` when generation returns empty/whitespace code. -/
theorem loopAux_step_emptycode (env : LoopEnv) (maxIter fuel i : Nat) (st : LoopState)
    (c : String) (hs : env.stop i = false) (hg : env.gen i = .ok c)
    (hc : pyStripEmpty c = true) :
    loopAux env maxIter (fuel + 1) i st =
      (let out := loopAux env maxIter fuel (i + 1)
        ⟨st.feedbacks ++ ["Code generation returned empty result"],
          st.feedback, st.bestCode, st.bestScore, st.bestIter⟩
       ⟨out.code, out.feedbacks, .genCall i :: out.trace, out.checks + 1⟩) := by
  simp [loopAux, hs, hg, hc]

/-- Unfolding `loopAux` when the round's code is reviewed and approved. -/
theorem loopAux_step_approved (env : LoopEnv) (maxIter fuel i : Nat) (st : LoopState)
    (c fb : String) (hs : env.stop i = false) (hg : env.gen i = .ok c)
    (hc : pyStripEmpty c = false) (hr : env.rev i c = (true, fb)) :
    loopAux env maxIter (fuel + 1) i st =
      ⟨some c, st.feedbacks ++ [fb], [.genCall i, .revCall i c], 1⟩ := by
  simp [loopAux, hs, hg, hc, hr]

/-- Unfolding `loopAux` when the round's code is reviewed, not approved. -/
theorem loopAux_step_notapproved (env : LoopEnv) (maxIter fuel i : Nat) (st : LoopState)
    (c fb : String) (hs : env.stop i = false) (hg : env.gen i = .ok c)
    (hc : pyStripEmpty c = false) (hr : env.rev i c = (false, fb)) :
    loopAux env maxIter (fuel + 1) i st =
      (let nb : Option String × Int × Nat :=
        if st.bestCode = none ∨ st.bestScore < scoreCodeQuality fb c then
          (some c, scoreCodeQuality fb c, i + 1)
        else (st.bestCode, st.bestScore, st.bestIter)
       let out := loopAux env maxIter fuel (i + 1)
        ⟨st.feedbacks ++ [fb], some fb, nb.1, nb.2.1, nb.2.2⟩
       ⟨out.code, out.feedbacks,
         .genCall i :: .revCall i c :: out.trace, out.checks + 1⟩) := by
  simp [loopAux, hs, hg, hc, hr]

/-- Running the loop body from index `i` when round `j ≥ i` is the first
approved round: the loop returns round `j`'s code, appends exactly the
feedbacks of rounds `i..j`, makes exactly those rounds' calls, and polls
the stop check once per round entered. -/
theorem loopAux_approval (env : LoopEnv) (maxIter : Nat) (c f : Nat → String)
    (fuel : Nat) :
    ∀ i st j, i ≤ j → j < i + fuel →
    (∀ r, i ≤ r → r ≤ j → env.stop r = false) →
    (∀ r, i ≤ r → r ≤ j → env.gen r = .ok (c r)) →
    (∀ r, i ≤ r → r ≤ j → pyStripEmpty (c r) = false) →
    (∀ r, i ≤ r → r < j → env.rev r (c r) = (false, f r)) →
    env.rev j (c j) = (true, f j) →
    loopAux env maxIter fuel i st =
      ⟨some (c j), st.feedbacks ++ (List.range' i (j + 1 - i)).map f,
        List.flatten ((List.range' i (j + 1 - i)).map (roundCalls c)),
        j + 1 - i⟩ := by
  induction fuel with
  | zero => intro i st j h1 h2; omega
  | succ fuel ih =>
    intro i st j hij hj hstop hgen hne hrev happ
    have hs : env.stop i = false := hstop i le_rfl hij
    have hg : env.gen i = .ok (c i) := hgen i le_rfl hij
    have hni : pyStripEmpty (c i) = false := hne i le_rfl hij
    rcases eq_or_lt_of_le hij with rfl | hlt
    · rw [loopAux_step_approved env maxIter fuel i st (c i) (f i) hs hg hni happ]
      have h1 : i + 1 - i = 1 := by omega
      simp [h1, List.range'_one, roundCalls]
    · have hri : env.rev i (c i) = (false, f i) := hrev i le_rfl hlt
      rw [loopAux_step_notapproved env maxIter fuel i st (c i) (f i) hs hg hni hri]
      have hrec := ih (i + 1)
        ⟨st.feedbacks ++ [f i], some (f i),
          (if st.bestCode = none ∨ st.bestScore < scoreCodeQuality (f i) (c i) then
            (some (c i), scoreCodeQuality (f i) (c i), i + 1)
          else (st.bestCode, st.bestScore, st.bestIter)).1,
          (if st.bestCode = none ∨ st.bestScore < scoreCodeQuality (f i) (c i) then
            (some (c i), scoreCodeQuality (f i) (c i), i + 1)
          else (st.bestCode, st.bestScore, st.bestIter)).2.1,
          (if st.bestCode = none ∨ st.bestScore < scoreCodeQuality (f i) (c i) then
            (some (c i), scoreCodeQuality (f i) (c i), i + 1)
          else (st.bestCode, st.bestScore, st.bestIter)).2.2⟩ j
        (by omega) (by omega)
        (fun r h1 h2 => hstop r (by omega) h2)
        (fun r h1 h2 => hgen r (by omega) h2)
        (fun r h1 h2 => hne r (by omega) h2)
        (fun r h1 h2 => hrev r (by omega) h2) happ
      have hlen : j + 1 - i = (j + 1 - (i + 1)) + 1 := by omega
      simp only [hrec]
      simp [hlen, List.range'_succ, roundCalls, List.append_assoc]

/-- C3: if the review agent approves on (1-based) iteration `j + 1` with
`j + 1 ≤ max_iterations`, every earlier round generating non-empty code
and receiving a non-approved review, the loop returns exactly `j + 1`
feedback entries together with that round's code, and performs no
generation or review call after that round. -/
theorem C3_approval_short_circuit (env : LoopEnv) (maxIter j : Nat)
    (c f : Nat → String)
    (hj : j < maxIter)
    (hstop : ∀ i, i ≤ j → env.stop i = false)
    (hgen : ∀ i, i ≤ j → env.gen i = .ok (c i))
    (hne : ∀ i, i ≤ j → pyStripEmpty (c i) = false)
    (hrev : ∀ i, i < j → env.rev i (c i) = (false, f i))
    (happ : env.rev j (c j) = (true, f j)) :
    runLoop env maxIter =
      ⟨some (c j), (List.range (j + 1)).map f,
        List.flatten ((List.range (j + 1)).map (roundCalls c)), j + 1⟩ ∧
    ((List.range (j + 1)).map f).length = j + 1 := by
  have h := loopAux_approval env maxIter c f maxIter 0 initLoopState j
    (Nat.zero_le _) (by omega)
    (fun r h1 h2 => hstop r h2) (fun r h1 h2 => hgen r h2)
    (fun r h1 h2 => hne r h2) (fun r h1 h2 => hrev r h2) happ
  constructor
  · rw [runLoop, h]
    simp [initLoopState, List.range_eq_range']
  · simp

/-- Splitting one round off the front of the best-candidate accumulator. -/
theorem bestAcc_succ_front (c f : Nat → String) (i fuel : Nat)
    (acc : Option String × Int × Nat) :
    bestAcc c f i (fuel + 1) acc = bestAcc c f (i + 1) fuel (bestStep c f acc i) := by
  simp [bestAcc, List.range'_succ]

/-- Running the loop from index `i` when no round of the window approves:
each round's feedback is appended in order, the best candidate evolves by
`bestStep`, every round makes its generation and review call, and on exit
the system note is appended exactly when a best candidate exists. -/
theorem loopAux_no_approval (env : LoopEnv) (maxIter : Nat) (c f : Nat → String)
    (fuel : Nat) :
    ∀ i st,
    (∀ r, i ≤ r → r < i + fuel → env.stop r = false) →
    (∀ r, i ≤ r → r < i + fuel → env.gen r = .ok (c r)) →
    (∀ r, i ≤ r → r < i + fuel → pyStripEmpty (c r) = false) →
    (∀ r, i ≤ r → r < i + fuel → env.rev r (c r) = (false, f r)) →
    loopAux env maxIter fuel i st =
      ⟨(bestAcc c f i fuel (st.bestCode, st.bestScore, st.bestIter)).1,
        st.feedbacks ++ (List.range' i fuel).map f ++
          finishNote maxIter (bestAcc c f i fuel (st.bestCode, st.bestScore, st.bestIter)),
        List.flatten ((List.range' i fuel).map (roundCalls c)),
        fuel⟩ := by
  induction fuel with
  | zero =>
    intro i st _ _ _ _
    cases hb : st.bestCode with
    | none => simp [loopAux, hb, bestAcc, finishNote]
    | some b => simp [loopAux, hb, bestAcc, finishNote]
  | succ fuel ih =>
    intro i st hstop hgen hne hrev
    have hs : env.stop i = false := hstop i le_rfl (by omega)
    have hg : env.gen i = .ok (c i) := hgen i le_rfl (by omega)
    have hni : pyStripEmpty (c i) = false := hne i le_rfl (by omega)
    have hri : env.rev i (c i) = (false, f i) := hrev i le_rfl (by omega)
    rw [loopAux_step_notapproved env maxIter fuel i st (c i) (f i) hs hg hni hri]
    have hrec := ih (i + 1)
      ⟨st.feedbacks ++ [f i], some (f i),
        (if st.bestCode = none ∨ st.bestScore < scoreCodeQuality (f i) (c i) then
          (some (c i), scoreCodeQuality (f i) (c i), i + 1)
        else (st.bestCode, st.bestScore, st.bestIter)).1,
        (if st.bestCode = none ∨ st.bestScore < scoreCodeQuality (f i) (c i) then
          (some (c i), scoreCodeQuality (f i) (c i), i + 1)
        else (st.bestCode, st.bestScore, st.bestIter)).2.1,
        (if st.bestCode = none ∨ st.bestScore < scoreCodeQuality (f i) (c i) then
          (some (c i), scoreCodeQuality (f i) (c i), i + 1)
        else (st.bestCode, st.bestScore, st.bestIter)).2.2⟩
      (fun r h1 h2 => hstop r (by omega) (by omega))
      (fun r h1 h2 => hgen r (by omega) (by omega))
      (fun r h1 h2 => hne r (by omega) (by omega))
      (fun r h1 h2 => hrev r (by omega) (by omega))
    simp only [hrec]
    have hnb : (if st.bestCode = none ∨ st.bestScore < scoreCodeQuality (f i) (c i) then
        (some (c i), scoreCodeQuality (f i) (c i), i + 1)
      else (st.bestCode, st.bestScore, st.bestIter)) =
        bestStep c f (st.bestCode, st.bestScore, st.bestIter) i := by
      simp [bestStep]
    simp [Prod.mk.eta, hnb, bestAcc_succ_front, List.range'_succ, List.append_assoc,
      roundCalls]

/-- The best-candidate accumulator started from the initial loop state
selects the earliest maximal-score round: after `n ≥ 1` reviewed rounds it
holds round `b`'s code, score and 1-based iteration number, where `b` is
the least index attaining the maximal score. -/
theorem bestFold_spec (c f : Nat → String) :
    ∀ n, 0 < n →
    ∃ b, b < n ∧
      bestAcc c f 0 n (none, -1, 0) =
        (some (c b), scoreCodeQuality (f b) (c b), b + 1) ∧
      (∀ r, r < n → scoreCodeQuality (f r) (c r) ≤ scoreCodeQuality (f b) (c b)) ∧
      (∀ r, r < b → scoreCodeQuality (f r) (c r) < scoreCodeQuality (f b) (c b)) := by
  intro n
  induction n with
  | zero => intro h; omega
  | succ n ih =>
    intro _
    rcases Nat.eq_zero_or_pos n with rfl | hn
    · refine ⟨0, by omega, ?_, ?_, ?_⟩
      · simp [bestAcc, bestStep]
      · intro r hr
        have : r = 0 := by omega
        subst this; exact le_refl _
      · intro r hr; omega
    · obtain ⟨b, hb, hfold, hmax, hstrict⟩ := ih hn
      have hsplit : bestAcc c f 0 (n + 1) (none, -1, 0) =
          bestStep c f (bestAcc c f 0 n (none, -1, 0)) n := by
        unfold bestAcc
        rw [List.range'_concat]
        simp [List.foldl_append]
      rw [hfold] at hsplit
      by_cases hcase :
          scoreCodeQuality (f b) (c b) < scoreCodeQuality (f n) (c n)
      · refine ⟨n, by omega, ?_, ?_, ?_⟩
        · rw [hsplit]; simp [bestStep, hcase]
        · intro r hr
          rcases Nat.lt_succ_iff_lt_or_eq.mp hr with hr | rfl
          · exact le_of_lt (lt_of_le_of_lt (hmax r hr) hcase)
          · exact le_refl _
        · intro r hr
          exact lt_of_le_of_lt (hmax r hr) hcase
      · refine ⟨b, by omega, ?_, ?_, ?_⟩
        · rw [hsplit]; simp [bestStep, hcase]
        · intro r hr
          rcases Nat.lt_succ_iff_lt_or_eq.mp hr with hr | rfl
          · exact hmax r hr
          · exact le_of_not_lt hcase
        · exact hstrict

/-- C4: if no round is approved but every round produces non-empty code
and a review result, the loop returns max_iterations feedback entries plus
one synthetic system note naming the winning iteration, performs every
round's generation and review call, and returns the candidate of maximal
score, ties broken in favour of the earliest iteration (strict improvement
required to replace the best). -/
theorem C4_no_approval_best_candidate (env : LoopEnv) (maxIter : Nat)
    (c f : Nat → String) (h0 : 0 < maxIter)
    (hstop : ∀ r, r < maxIter → env.stop r = false)
    (hgen : ∀ r, r < maxIter → env.gen r = .ok (c r))
    (hne : ∀ r, r < maxIter → pyStripEmpty (c r) = false)
    (hrev : ∀ r, r < maxIter → env.rev r (c r) = (false, f r)) :
    ∃ b, b < maxIter ∧
      runLoop env maxIter =
        ⟨some (c b), (List.range maxIter).map f ++ [sysNote maxIter (b + 1)],
          List.flatten ((List.range maxIter).map (roundCalls c)), maxIter⟩ ∧
      ((List.range maxIter).map f ++ [sysNote maxIter (b + 1)]).length = maxIter + 1 ∧
      (∀ r, r < maxIter → scoreCodeQuality (f r) (c r) ≤ scoreCodeQuality (f b) (c b)) ∧
      (∀ r, r < b → scoreCodeQuality (f r) (c r) < scoreCodeQuality (f b) (c b)) := by
  have h := loopAux_no_approval env maxIter c f maxIter 0 initLoopState
    (fun r h1 h2 => hstop r (by omega))
    (fun r h1 h2 => hgen r (by omega))
    (fun r h1 h2 => hne r (by omega))
    (fun r h1 h2 => hrev r (by omega))
  obtain ⟨b, hb, hfold, hmax, hstrict⟩ := bestFold_spec c f maxIter h0
  refine ⟨b, hb, ?_, by simp, hmax, hstrict⟩
  rw [runLoop, h]
  simp only [initLoopState]
  rw [show ((⟨[], none, none, -1, 0⟩ : LoopState).bestCode,
      (⟨[], none, none, -1, 0⟩ : LoopState).bestScore,
      (⟨[], none, none, -1, 0⟩ : LoopState).bestIter) =
      ((none : Option String), (-1 : Int), (0 : Nat)) from rfl]
  rw [← List.range_eq_range', hfold]
  simp [finishNote]

/-- Witness for C4: max_iterations 2, two reviewed rounds, never approved;
round 1 wins the tie at equal scores. -/
theorem C4_no_approval_best_candidate_witness :
    runLoop ⟨fun _ => false, fun _ => .ok "x = 1", fun _ _ => (false, "bad")⟩ 2 =
      ⟨some "x = 1", ["bad", "bad", sysNote 2 1],
        [.genCall 0, .revCall 0 "x = 1", .genCall 1, .revCall 1 "x = 1"], 2⟩ := by
  obtain ⟨b, hb, heq, -, -, hstrict⟩ :=
    C4_no_approval_best_candidate
      ⟨fun _ => false, fun _ => .ok "x = 1", fun _ _ => (false, "bad")⟩
      2 (fun _ => "x = 1") (fun _ => "bad")
      (by omega) (fun r _ => rfl) (fun r _ => rfl)
      (fun r _ => (by decide : pyStripEmpty "x = 1" = false))
      (fun r _ => rfl)
  have hb0 : b = 0 := by
    interval_cases b
    · rfl
    · exact absurd (hstrict 0 (by omega)) (lt_irrefl _)
  subst hb0
  rw [heq]
  rfl

/-- Witness for C3: max_iterations 2, approval on the first round. -/
theorem C3_approval_short_circuit_witness :
    runLoop ⟨fun _ => false, fun _ => .ok "x = 1", fun _ _ => (true, "APPROVED")⟩ 2 =
      ⟨some "x = 1", ["APPROVED"],
        [.genCall 0, .revCall 0 "x = 1"], 1⟩ := by
  have h := C3_approval_short_circuit
    ⟨fun _ => false, fun _ => .ok "x = 1", fun _ _ => (true, "APPROVED")⟩
    2 0 (fun _ => "x = 1") (fun _ => "APPROVED")
    (by omega) (fun i _ => rfl) (fun i _ => rfl)
    (fun i _ => (by decide : pyStripEmpty "x = 1" = false))
    (fun i h => absurd h (by omega)) rfl
  simpa using h.1

/-- Flattening per-round two-entry feedback blocks doubles the length. -/
theorem length_flatten_pairs (g h : Nat → String) (l : List Nat) :
    (List.flatten (l.map (fun r => [g r, h r]))).length = 2 * l.length := by
  induction l with
  | nil => simp
  | cons a t ih => simp [ih]; omega

/-- Running the loop from index `i` when every round's generation exhausts
its retries: each round appends its "Code generation error" entry followed
by the "Code generation returned empty result" entry, no review ever runs,
and the loop ends with no code. -/
theorem loopAux_all_genfail (env : LoopEnv) (maxIter : Nat) (msg : Nat → String)
    (fuel : Nat) :
    ∀ i st, st.bestCode = none →
    (∀ r, i ≤ r → r < i + fuel → env.stop r = false) →
    (∀ r, i ≤ r → r < i + fuel → env.gen r = .error (msg r)) →
    loopAux env maxIter fuel i st =
      ⟨none,
        st.feedbacks ++ List.flatten ((List.range' i fuel).map (fun r =>
          ["Code generation error: " ++ msg r,
           "Code generation returned empty result"])),
        (List.range' i fuel).map AgentCall.genCall, fuel⟩ := by
  induction fuel with
  | zero =>
    intro i st hb _ _
    simp [loopAux, hb]
  | succ fuel ih =>
    intro i st hb hstop hgen
    have hs : env.stop i = false := hstop i le_rfl (by omega)
    have hg : env.gen i = .error (msg i) := hgen i le_rfl (by omega)
    rw [loopAux_step_genfail env maxIter fuel i st (msg i) hs hg]
    have hrec := ih (i + 1)
      ⟨st.feedbacks ++ ["Code generation error: " ++ msg i,
                        "Code generation returned empty result"],
        st.feedback, st.bestCode, st.bestScore, st.bestIter⟩ hb
      (fun r h1 h2 => hstop r (by omega) (by omega))
      (fun r h1 h2 => hgen r (by omega) (by omega))
    simp only [hrec]
    simp [List.range'_succ, List.append_assoc]

/-- C5 counterexample: with max_iterations 3 and a coding agent that
always exhausts its retries, every failed round records TWO feedback
entries (the error entry at orchestrator.py line 442 and then, since
`code` is still `None`, the empty-result entry at line 445), so the loop
returns 6 entries — not the 3 entries the claim states. -/
theorem C5_counterexample :
    runLoop allFailLoopEnv 3 =
      ⟨none,
        ["Code generation error: boom", "Code generation returned empty result",
         "Code generation error: boom", "Code generation returned empty result",
         "Code generation error: boom", "Code generation returned empty result"],
        [.genCall 0, .genCall 1, .genCall 2], 3⟩ ∧
    (runLoop allFailLoopEnv 3).feedbacks.length ≠ 3 := by
  constructor
  · rfl
  · decide

/-- C5 amended: a retry-exhausted round records a "Code generation error"
entry immediately followed by a "Code generation returned empty result"
entry (two entries per abandoned round), the round contributes no code,
and the loop continues; with an always-raising coding agent the loop
returns no code and `2 * max_iterations` entries, and the pipeline ends
with status `failed` and the no-code error message. -/
theorem C5_genfail_two_entries (env : PipelineEnv) (maxIter : Nat)
    (msg : Nat → String) (input : String)
    (hin : pyStripEmpty input = false)
    (hstop : ∀ n, env.stop n = false)
    (hgen : ∀ i, env.gen i = .error (msg i)) :
    runLoop (loopEnvOf env) maxIter =
      ⟨none,
        List.flatten ((List.range maxIter).map (fun r =>
          ["Code generation error: " ++ msg r,
           "Code generation returned empty result"])),
        (List.range maxIter).map AgentCall.genCall, maxIter⟩ ∧
    (execute_pipeline env maxIter input).results.status = "failed" ∧
    (execute_pipeline env maxIter input).results.code = none ∧
    (execute_pipeline env maxIter input).results.error = some noCodeMsg ∧
    (execute_pipeline env maxIter input).results.review_feedback.length =
      2 * maxIter := by
  have hl := loopAux_all_genfail (loopEnvOf env) maxIter msg maxIter 0 initLoopState
    rfl (fun r h1 h2 => hstop (3 + r)) (fun r h1 h2 => hgen r)
  have hrun : runLoop (loopEnvOf env) maxIter =
      ⟨none,
        List.flatten ((List.range maxIter).map (fun r =>
          ["Code generation error: " ++ msg r,
           "Code generation returned empty result"])),
        (List.range maxIter).map AgentCall.genCall, maxIter⟩ := by
    rw [runLoop, hl]
    simp [initLoopState, List.range_eq_range']
  refine ⟨hrun, ?_⟩
  unfold execute_pipeline
  simp only [hstop, hin, Bool.false_eq_true, if_false, hrun]
  refine ⟨trivial, trivial, trivial, ?_⟩
  rw [length_flatten_pairs]
  simp

/-- Witness for the amended C5 at max_iterations 3 and error message
"boom". -/
theorem C5_genfail_two_entries_witness :
    runLoop (loopEnvOf genFailEnv) 3 =
      ⟨none,
        List.flatten ((List.range 3).map (fun r =>
          ["Code generation error: " ++ (fun _ => "boom") r,
           "Code generation returned empty result"])),
        (List.range 3).map AgentCall.genCall, 3⟩ ∧
    (execute_pipeline genFailEnv 3 "task").results.status = "failed" ∧
    (execute_pipeline genFailEnv 3 "task").results.code = none ∧
    (execute_pipeline genFailEnv 3 "task").results.error = some noCodeMsg ∧
    (execute_pipeline genFailEnv 3 "task").results.review_feedback.length = 2 * 3 :=
  C5_genfail_two_entries genFailEnv 3 (fun _ => "boom") "task"
    (by decide) (fun _ => rfl) (fun _ => rfl)

/-- C1 (code defect): the orchestrator's call to `generate_code` passes the
keyword `previous_code` on EVERY round (orchestrator.py line 434), but
`CodingAgent.generate_code` (coding_agent.py line 60) has no such
parameter, so argument binding raises `TypeError` before the agent body
runs — the call never succeeds, even when the agent itself would, and even
when `code_to_pass` is `None`.  The `code_to_pass` gating itself (round 1
only, no feedback yet) matches the claim. -/
theorem C1_previous_code_keyword_type_error :
    (∀ agentBody, callGenerateCode agentBody orchestratorGenCallArgs = .typeError) ∧
    (∀ code, callGenerateCode (.ok code) orchestratorGenCallArgs ≠ .ok code) ∧
    (∀ i fb pc, i ≠ 0 → codeToPass i fb pc = none) ∧
    (∀ fb pc, pyTruthyOpt fb = true → codeToPass 0 fb pc = none) := by
  have hbind : bindOk generateCodeParams orchestratorGenCallArgs = false := by decide
  refine ⟨?_, ?_, ?_, ?_⟩
  · intro body
    simp [callGenerateCode, hbind]
  · intro code
    simp [callGenerateCode, hbind]
  · intro i fb pc hi
    simp [codeToPass, hi]
  · intro fb pc h
    simp [codeToPass, h]

/-- Witness for C1: the call raises `TypeError` even for a succeeding
agent body, and `code_to_pass` is `None` on round 2. -/
theorem C1_previous_code_keyword_type_error_witness :
    callGenerateCode (.ok "x = 1") orchestratorGenCallArgs = .typeError ∧
    codeToPass 1 none (some "old code") = none :=
  ⟨C1_previous_code_keyword_type_error.1 (.ok "x = 1"),
   C1_previous_code_keyword_type_error.2.2.1 1 none (some "old code") (by omega)⟩

/-- C7: for every empty or whitespace-only input, no agent is ever called;
and unless the very first stop poll fires (the poll at orchestrator.py
line 167 precedes validation), the pipeline returns immediately with the
input-validation error message, no stage output, and status `error`. -/
theorem C7_empty_input_validation (env : PipelineEnv) (maxIter : Nat)
    (input : String) (hin : pyStripEmpty input = true) :
    (execute_pipeline env maxIter input).calls = [] ∧
    (env.stop 0 = false →
      execute_pipeline env maxIter input =
        ⟨{ initResults input with status := "error", error := some emptyInputMsg },
          [], []⟩) := by
  constructor
  · unfold execute_pipeline
    by_cases h0 : env.stop 0 = true
    · simp [h0]
    · have h0' : env.stop 0 = false := by
        revert h0; cases env.stop 0 <;> simp
      simp [h0', hin]
  · intro h0
    unfold execute_pipeline
    simp [h0, hin]

/-- Witness for C7 on the whitespace-only input `"  "`. -/
theorem C7_empty_input_validation_witness :
    (execute_pipeline allOkEnv 3 "  ").calls = [] ∧
    (allOkEnv.stop 0 = false →
      execute_pipeline allOkEnv 3 "  " =
        ⟨{ initResults "  " with status := "error", error := some emptyInputMsg },
          [], []⟩) :=
  C7_empty_input_validation allOkEnv 3 "  " (by decide)

/-- Every call recorded by the iteration loop is a generation or a review
call: the loop never invokes the documentation, test or deployment agents. -/
theorem loopAux_trace_calls (env : LoopEnv) (maxIter fuel : Nat) :
    ∀ i st call, call ∈ (loopAux env maxIter fuel i st).trace →
      (∃ r, call = .genCall r) ∨ ∃ r code, call = .revCall r code := by
  induction fuel with
  | zero =>
    intro i st call h
    cases hb : st.bestCode <;> simp [loopAux, hb] at h
  | succ fuel ih =>
    intro i st call h
    by_cases hs : env.stop i = true
    · rw [loopAux_step_stop env maxIter fuel i st hs] at h
      simp at h
    · have hs' : env.stop i = false := by
        revert hs; cases env.stop i <;> simp
      cases hg : env.gen i with
      | error e =>
        rw [loopAux_step_genfail env maxIter fuel i st e hs' hg] at h
        simp only [List.mem_cons] at h
        rcases h with rfl | h
        · exact Or.inl ⟨i, rfl⟩
        · exact ih (i + 1) _ call h
      | ok c =>
        by_cases hc : pyStripEmpty c = true
        · rw [loopAux_step_emptycode env maxIter fuel i st c hs' hg hc] at h
          simp only [List.mem_cons] at h
          rcases h with rfl | h
          · exact Or.inl ⟨i, rfl⟩
          · exact ih (i + 1) _ call h
        · have hc' : pyStripEmpty c = false := by
            revert hc; cases pyStripEmpty c <;> simp
          rcases hrev : env.rev i c with ⟨approved, fb⟩
          cases approved
          · rw [loopAux_step_notapproved env maxIter fuel i st c fb hs' hg hc' hrev] at h
            simp only [List.mem_cons] at h
            rcases h with rfl | rfl | h
            · exact Or.inl ⟨i, rfl⟩
            · exact Or.inr ⟨i, c, rfl⟩
            · exact ih (i + 1) _ call h
          · rw [loopAux_step_approved env maxIter fuel i st c fb hs' hg hc' hrev] at h
            simp at h
            rcases h with rfl | rfl
            · exact Or.inl ⟨i, rfl⟩
            · exact Or.inr ⟨i, c, rfl⟩

/-- Shape of the pipeline's call list: besides requirement analysis and
the loop's generation/review calls, only documentation/test/deployment
calls occur, all carrying the loop's code value, and only when that value
is non-null. -/
theorem pipeline_calls_shape (env : PipelineEnv) (maxIter : Nat) (input : String) :
    ∀ call ∈ (execute_pipeline env maxIter input).calls,
      call = .analyze input ∨
      (∃ r, call = .genCall r) ∨ (∃ r c, call = .revCall r c) ∨
      ((runLoop (loopEnvOf env) maxIter).code ≠ none ∧
        (call = .doc (runLoop (loopEnvOf env) maxIter).code ∨
         call = .test (runLoop (loopEnvOf env) maxIter).code ∨
         call = .deploy (runLoop (loopEnvOf env) maxIter).code)) := by
  intro call h
  have hloop : call ∈ (runLoop (loopEnvOf env) maxIter).trace →
      (∃ r, call = .genCall r) ∨ ∃ r c, call = .revCall r c :=
    fun hm => loopAux_trace_calls (loopEnvOf env) maxIter maxIter 0 initLoopState call hm
  by_cases h0 : env.stop 0 = true
  · simp [execute_pipeline, h0] at h
  · have h0' : env.stop 0 = false := by revert h0; cases env.stop 0 <;> simp
    by_cases hv : pyStripEmpty input = true
    · simp [execute_pipeline, h0', hv] at h
    · have hv' : pyStripEmpty input = false := by
        revert hv; cases pyStripEmpty input <;> simp
      by_cases h1 : env.stop 1 = true
      · simp [execute_pipeline, h0', hv', h1] at h
      · have h1' : env.stop 1 = false := by revert h1; cases env.stop 1 <;> simp
        by_cases h2 : env.stop 2 = true
        · simp [execute_pipeline, h0', hv', h1', h2] at h
          exact Or.inl h
        · have h2' : env.stop 2 = false := by revert h2; cases env.stop 2 <;> simp
          rcases hlc : (runLoop (loopEnvOf env) maxIter).code with _ | cv
          · simp only [execute_pipeline, h0', hv', h1', h2', hlc,
              Bool.false_eq_true, if_false, if_true, List.mem_cons] at h
            rcases h with rfl | hm
            · exact Or.inl rfl
            · rcases hloop hm with ⟨r, rfl⟩ | ⟨r, c0, rfl⟩
              · exact Or.inr (Or.inl ⟨r, rfl⟩)
              · exact Or.inr (Or.inr (Or.inl ⟨r, c0, rfl⟩))
          · have hne' : (some cv : Option String) ≠ none := by simp
            by_cases h3 : env.stop (3 + (runLoop (loopEnvOf env) maxIter).checks) = true
            · simp only [execute_pipeline, h0', hv', h1', h2', hlc, h3,
                Bool.false_eq_true, if_false, if_true, List.mem_cons] at h
              rcases h with rfl | hm
              · exact Or.inl rfl
              · rcases hloop hm with ⟨r, rfl⟩ | ⟨r, c0, rfl⟩
                · exact Or.inr (Or.inl ⟨r, rfl⟩)
                · exact Or.inr (Or.inr (Or.inl ⟨r, c0, rfl⟩))
            · have h3' : env.stop (3 + (runLoop (loopEnvOf env) maxIter).checks) = false := by
                revert h3
                cases env.stop (3 + (runLoop (loopEnvOf env) maxIter).checks) <;> simp
              by_cases h4 : env.stop (4 + (runLoop (loopEnvOf env) maxIter).checks) = true
              · simp only [execute_pipeline, h0', hv', h1', h2', hlc, h3', h4,
                  Bool.false_eq_true, if_false, if_true] at h
                simp at h
                rcases h with rfl | hm | rfl
                · exact Or.inl rfl
                · rcases hloop hm with ⟨r, rfl⟩ | ⟨r, c0, rfl⟩
                  · exact Or.inr (Or.inl ⟨r, rfl⟩)
                  · exact Or.inr (Or.inr (Or.inl ⟨r, c0, rfl⟩))
                · exact Or.inr (Or.inr (Or.inr ⟨hne', Or.inl rfl⟩))
              · have h4' : env.stop (4 + (runLoop (loopEnvOf env) maxIter).checks) = false := by
                  revert h4
                  cases env.stop (4 + (runLoop (loopEnvOf env) maxIter).checks) <;> simp
                by_cases h5 : env.stop (5 + (runLoop (loopEnvOf env) maxIter).checks) = true
                · simp only [execute_pipeline, h0', hv', h1', h2', hlc, h3', h4', h5,
                    Bool.false_eq_true, if_false, if_true] at h
                  simp at h
                  rcases h with rfl | hm | rfl | rfl
                  · exact Or.inl rfl
                  · rcases hloop hm with ⟨r, rfl⟩ | ⟨r, c0, rfl⟩
                    · exact Or.inr (Or.inl ⟨r, rfl⟩)
                    · exact Or.inr (Or.inr (Or.inl ⟨r, c0, rfl⟩))
                  · exact Or.inr (Or.inr (Or.inr ⟨hne', Or.inl rfl⟩))
                  · exact Or.inr (Or.inr (Or.inr ⟨hne', Or.inr (Or.inl rfl)⟩))
                · have h5' : env.stop (5 + (runLoop (loopEnvOf env) maxIter).checks) = false := by
                    revert h5
                    cases env.stop (5 + (runLoop (loopEnvOf env) maxIter).checks) <;> simp
                  rcases hdep : env.deployResult with e | d <;>
                  · simp only [execute_pipeline, h0', hv', h1', h2', hlc, h3', h4', h5',
                      hdep, Bool.false_eq_true, if_false, if_true] at h
                    simp at h
                    rcases h with rfl | hm | rfl | rfl | rfl
                    · exact Or.inl rfl
                    · rcases hloop hm with ⟨r, rfl⟩ | ⟨r, c0, rfl⟩
                      · exact Or.inr (Or.inl ⟨r, rfl⟩)
                      · exact Or.inr (Or.inr (Or.inl ⟨r, c0, rfl⟩))
                    · exact Or.inr (Or.inr (Or.inr ⟨hne', Or.inl rfl⟩))
                    · exact Or.inr (Or.inr (Or.inr ⟨hne', Or.inr (Or.inl rfl)⟩))
                    · exact Or.inr (Or.inr (Or.inr ⟨hne', Or.inr (Or.inr rfl)⟩))

/-- C2: whenever a documentation, test-generation or deployment call is
made, the code value it observes in pipeline state is non-null; and if the
iteration loop returns no code, the pipeline aborts before the
documentation stage with status `failed` and an error message, never
invoking the three downstream agents. -/
theorem C2_downstream_stages_observe_code (env : PipelineEnv) (maxIter : Nat)
    (input : String) :
    (∀ co, AgentCall.doc co ∈ (execute_pipeline env maxIter input).calls → co ≠ none) ∧
    (∀ co, AgentCall.test co ∈ (execute_pipeline env maxIter input).calls → co ≠ none) ∧
    (∀ co, AgentCall.deploy co ∈ (execute_pipeline env maxIter input).calls → co ≠ none) ∧
    (pyStripEmpty input = false →
     (∀ n, env.stop n = false) →
     (runLoop (loopEnvOf env) maxIter).code = none →
       (execute_pipeline env maxIter input).results.status = "failed" ∧
       (execute_pipeline env maxIter input).results.error = some noCodeMsg ∧
       (execute_pipeline env maxIter input).results.code = none ∧
       ∀ co, AgentCall.doc co ∉ (execute_pipeline env maxIter input).calls ∧
             AgentCall.test co ∉ (execute_pipeline env maxIter input).calls ∧
             AgentCall.deploy co ∉ (execute_pipeline env maxIter input).calls) := by
  refine ⟨?_, ?_, ?_, ?_⟩
  · intro co h
    rcases pipeline_calls_shape env maxIter input _ h with
      h1 | ⟨r, h1⟩ | ⟨r, c0, h1⟩ | ⟨hne, h1 | h1 | h1⟩
    · simp at h1
    · simp at h1
    · simp at h1
    · injection h1 with h2
      rw [h2]; exact hne
    · simp at h1
    · simp at h1
  · intro co h
    rcases pipeline_calls_shape env maxIter input _ h with
      h1 | ⟨r, h1⟩ | ⟨r, c0, h1⟩ | ⟨hne, h1 | h1 | h1⟩
    · simp at h1
    · simp at h1
    · simp at h1
    · simp at h1
    · injection h1 with h2
      rw [h2]; exact hne
    · simp at h1
  · intro co h
    rcases pipeline_calls_shape env maxIter input _ h with
      h1 | ⟨r, h1⟩ | ⟨r, c0, h1⟩ | ⟨hne, h1 | h1 | h1⟩
    · simp at h1
    · simp at h1
    · simp at h1
    · simp at h1
    · simp at h1
    · injection h1 with h2
      rw [h2]; exact hne
  · intro hin hstop hnone
    have hpipe : execute_pipeline env maxIter input =
        ⟨⟨input, some (reqsOf env input), none,
           (runLoop (loopEnvOf env) maxIter).feedbacks, none, none, none,
           (runLoop (loopEnvOf env) maxIter).feedbacks.length, "failed",
           some noCodeMsg⟩,
          ["requirement_analysis", "code_generation", "code_review"],
          .analyze input :: (runLoop (loopEnvOf env) maxIter).trace⟩ := by
      unfold execute_pipeline
      simp only [hstop, hin, Bool.false_eq_true, if_false, hnone]
      rfl
    refine ⟨by rw [hpipe], by rw [hpipe], by rw [hpipe], ?_⟩
    intro co
    refine ⟨?_, ?_, ?_⟩ <;>
    · rw [hpipe]
      intro hmem
      simp only [List.mem_cons] at hmem
      rcases hmem with h1 | h1
      · simp at h1
      · rcases loopAux_trace_calls (loopEnvOf env) maxIter maxIter 0 initLoopState
          _ h1 with ⟨r, h2⟩ | ⟨r, c0, h2⟩ <;> simp at h2

/-- Witness for C2: a run whose coding agent always fails ends `failed`
and makes no documentation call. -/
theorem C2_downstream_stages_observe_code_witness :
    (execute_pipeline genFailEnv 1 "task").results.status = "failed" ∧
    AgentCall.doc (some "x = 1") ∉ (execute_pipeline genFailEnv 1 "task").calls := by
  have h := C2_downstream_stages_observe_code genFailEnv 1 "task"
  have h4 := h.2.2.2 (by decide) (fun n => rfl) rfl
  exact ⟨h4.1, (h4.2.2.2 (some "x = 1")).1⟩

/-- C8: cooperative cancellation.  If the stop check first returns true at
the boundary poll before stage `i`, the pipeline halts with status
`stopped`, returns outputs only for stages earlier than `i`, and never
invokes stage `i` or any later stage.  The six conjuncts cover, in order:
the two polls before requirement analysis, the poll before the code stage,
and the polls before documentation, test generation and deployment (the
latter three numbered after the loop's own polls). -/
theorem C8_cooperative_stop (env : PipelineEnv) (maxIter : Nat) (input : String) :
    (env.stop 0 = true →
      execute_pipeline env maxIter input =
        ⟨⟨input, none, none, [], none, none, none, 0, "stopped", none⟩, [], []⟩) ∧
    (pyStripEmpty input = false → env.stop 0 = false → env.stop 1 = true →
      execute_pipeline env maxIter input =
        ⟨⟨input, none, none, [], none, none, none, 0, "stopped", none⟩, [], []⟩) ∧
    (pyStripEmpty input = false → env.stop 0 = false → env.stop 1 = false →
      env.stop 2 = true →
      execute_pipeline env maxIter input =
        ⟨⟨input, some (reqsOf env input), none, [], none, none, none, 0,
           "stopped", none⟩,
          ["requirement_analysis"], [.analyze input]⟩) ∧
    (pyStripEmpty input = false →
      (∀ n, n < 3 + (runLoop (loopEnvOf env) maxIter).checks → env.stop n = false) →
      env.stop (3 + (runLoop (loopEnvOf env) maxIter).checks) = true →
      (runLoop (loopEnvOf env) maxIter).code ≠ none →
      execute_pipeline env maxIter input =
        ⟨⟨input, some (reqsOf env input), (runLoop (loopEnvOf env) maxIter).code,
           (runLoop (loopEnvOf env) maxIter).feedbacks, none, none, none,
           (runLoop (loopEnvOf env) maxIter).feedbacks.length, "stopped", none⟩,
          ["requirement_analysis", "code_generation", "code_review"],
          .analyze input :: (runLoop (loopEnvOf env) maxIter).trace⟩) ∧
    (pyStripEmpty input = false →
      (∀ n, n < 4 + (runLoop (loopEnvOf env) maxIter).checks → env.stop n = false) →
      env.stop (4 + (runLoop (loopEnvOf env) maxIter).checks) = true →
      (runLoop (loopEnvOf env) maxIter).code ≠ none →
      execute_pipeline env maxIter input =
        ⟨⟨input, some (reqsOf env input), (runLoop (loopEnvOf env) maxIter).code,
           (runLoop (loopEnvOf env) maxIter).feedbacks, some (docOf env), none, none,
           (runLoop (loopEnvOf env) maxIter).feedbacks.length, "stopped", none⟩,
          ["requirement_analysis", "code_generation", "code_review"] ++ ["documentation"],
          (AgentCall.analyze input :: (runLoop (loopEnvOf env) maxIter).trace) ++
            [AgentCall.doc (runLoop (loopEnvOf env) maxIter).code]⟩) ∧
    (pyStripEmpty input = false →
      (∀ n, n < 5 + (runLoop (loopEnvOf env) maxIter).checks → env.stop n = false) →
      env.stop (5 + (runLoop (loopEnvOf env) maxIter).checks) = true →
      (runLoop (loopEnvOf env) maxIter).code ≠ none →
      execute_pipeline env maxIter input =
        ⟨⟨input, some (reqsOf env input), (runLoop (loopEnvOf env) maxIter).code,
           (runLoop (loopEnvOf env) maxIter).feedbacks, some (docOf env),
           some (testsOf env), none,
           (runLoop (loopEnvOf env) maxIter).feedbacks.length, "stopped", none⟩,
          ["requirement_analysis", "code_generation", "code_review"] ++
            ["documentation"] ++ ["test_generation"],
          (AgentCall.analyze input :: (runLoop (loopEnvOf env) maxIter).trace) ++
            [AgentCall.doc (runLoop (loopEnvOf env) maxIter).code] ++
            [AgentCall.test (runLoop (loopEnvOf env) maxIter).code]⟩) := by
  refine ⟨?_, ?_, ?_, ?_, ?_, ?_⟩
  · intro h0
    unfold execute_pipeline
    rw [h0]
    rfl
  · intro hin h0 h1
    unfold execute_pipeline
    rw [h0, hin, h1]
    rfl
  · intro hin h0 h1 h2
    unfold execute_pipeline
    rw [h0, hin, h1, h2]
    rfl
  · intro hin hz h3 hsome
    obtain ⟨cv, hcv⟩ := Option.ne_none_iff_exists.mp hsome
    unfold execute_pipeline
    simp only [hz 0 (by omega), hin, hz 1 (by omega), hz 2 (by omega), ← hcv, h3]
    rfl
  · intro hin hz h4 hsome
    obtain ⟨cv, hcv⟩ := Option.ne_none_iff_exists.mp hsome
    unfold execute_pipeline
    simp only [hz 0 (by omega), hin, hz 1 (by omega), hz 2 (by omega), ← hcv,
      hz (3 + (runLoop (loopEnvOf env) maxIter).checks) (by omega), h4]
    rfl
  · intro hin hz h5 hsome
    obtain ⟨cv, hcv⟩ := Option.ne_none_iff_exists.mp hsome
    unfold execute_pipeline
    simp only [hz 0 (by omega), hin, hz 1 (by omega), hz 2 (by omega), ← hcv,
      hz (3 + (runLoop (loopEnvOf env) maxIter).checks) (by omega),
      hz (4 + (runLoop (loopEnvOf env) maxIter).checks) (by omega), h5]
    rfl

/-- Witness for C8: stop first requested at the boundary poll before the
documentation stage (poll 4, after one loop round that approves). -/
theorem C8_cooperative_stop_witness :
    execute_pipeline (stopAtEnv 4) 3 "task" =
      ⟨⟨"task", some (reqsOf (stopAtEnv 4) "task"),
         (runLoop (loopEnvOf (stopAtEnv 4)) 3).code,
         (runLoop (loopEnvOf (stopAtEnv 4)) 3).feedbacks, none, none, none,
         (runLoop (loopEnvOf (stopAtEnv 4)) 3).feedbacks.length, "stopped", none⟩,
        ["requirement_analysis", "code_generation", "code_review"],
        .analyze "task" :: (runLoop (loopEnvOf (stopAtEnv 4)) 3).trace⟩ :=
  (C8_cooperative_stop (stopAtEnv 4) 3 "task").2.2.2.1
    (by decide) (by decide) (by decide) (by decide)

/-- C9 counterexample: with a deployment agent that raises, the
substituted placeholder mapping has keys `requirements`,
`setup_instructions`, `github_push`, `hosting_platforms` — there is no
run-script entry, contrary to the claim — and the `deployment` stage is
not appended to the completed-steps sequence, though the run still ends
`completed`. -/
theorem C9_counterexample :
    (execute_pipeline deployFailEnv 1 "task").results.status = "completed" ∧
    (execute_pipeline deployFailEnv 1 "task").results.deployment_config =
      some deployFallback ∧
    List.lookup "run_script" deployFallback = none ∧
    "deployment" ∉ (execute_pipeline deployFailEnv 1 "task").completedSteps := by
  refine ⟨rfl, rfl, rfl, ?_⟩
  decide

/-- C9 amended: when the deployment agent raises, the pipeline substitutes
the orchestrator fallback mapping — requirements text, setup-instructions
text, github-push text and hosting-platforms text, with NO run-script
entry — does not append `deployment` to the completed-steps sequence, and
still finishes with status `completed`; the deployment agent was invoked
(and raised). -/
theorem C9_deploy_failure_fallback (env : PipelineEnv) (maxIter : Nat)
    (input : String) (e : String)
    (hin : pyStripEmpty input = false)
    (hstop : ∀ n, env.stop n = false)
    (hsome : (runLoop (loopEnvOf env) maxIter).code ≠ none)
    (hdep : env.deployResult = .error e) :
    (execute_pipeline env maxIter input).results.status = "completed" ∧
    (execute_pipeline env maxIter input).results.deployment_config =
      some deployFallback ∧
    deployFallback.map Prod.fst =
      ["requirements", "setup_instructions", "github_push", "hosting_platforms"] ∧
    List.lookup "run_script" deployFallback = none ∧
    "deployment" ∉ (execute_pipeline env maxIter input).completedSteps ∧
    AgentCall.deploy (runLoop (loopEnvOf env) maxIter).code ∈
      (execute_pipeline env maxIter input).calls := by
  obtain ⟨cv, hcv⟩ := Option.ne_none_iff_exists.mp hsome
  have hpipe : execute_pipeline env maxIter input =
      ⟨⟨input, some (reqsOf env input), (runLoop (loopEnvOf env) maxIter).code,
         (runLoop (loopEnvOf env) maxIter).feedbacks, some (docOf env),
         some (testsOf env), some deployFallback,
         (runLoop (loopEnvOf env) maxIter).feedbacks.length, "completed", none⟩,
        ["requirement_analysis", "code_generation", "code_review"] ++
          ["documentation"] ++ ["test_generation"],
        (AgentCall.analyze input :: (runLoop (loopEnvOf env) maxIter).trace) ++
          [AgentCall.doc (runLoop (loopEnvOf env) maxIter).code] ++
          [AgentCall.test (runLoop (loopEnvOf env) maxIter).code] ++
          [AgentCall.deploy (runLoop (loopEnvOf env) maxIter).code]⟩ := by
    unfold execute_pipeline
    simp only [hstop, hin, Bool.false_eq_true, if_false, ← hcv, hdep]
    rfl
  rw [hpipe]
  refine ⟨rfl, rfl, rfl, rfl, ?_, ?_⟩
  · show "deployment" ∉ ["requirement_analysis", "code_generation", "code_review"] ++
      ["documentation"] ++ ["test_generation"]
    decide
  · simp

/-- Witness for the amended C9 at a one-round approving run on input
`"task"`. -/
theorem C9_deploy_failure_fallback_witness :
    (execute_pipeline deployFailEnv 1 "task").results.status = "completed" ∧
    (execute_pipeline deployFailEnv 1 "task").results.deployment_config =
      some deployFallback ∧
    deployFallback.map Prod.fst =
      ["requirements", "setup_instructions", "github_push", "hosting_platforms"] ∧
    List.lookup "run_script" deployFallback = none ∧
    "deployment" ∉ (execute_pipeline deployFailEnv 1 "task").completedSteps ∧
    AgentCall.deploy (runLoop (loopEnvOf deployFailEnv) 1).code ∈
      (execute_pipeline deployFailEnv 1 "task").calls :=
  C9_deploy_failure_fallback deployFailEnv 1 "task" "deploy boom"
    (by decide) (fun n => rfl) (by decide) rfl

/-- C10: in every result record, the `iterations` field equals the length
of the `review_feedback` history; in particular, after an unapproved run
whose rounds all produce reviewed code, it equals max_iterations + 1 (the
max_iterations review entries plus the synthetic system note), not the
number of generate/review rounds. -/
theorem C10_iterations_equals_feedback_length (env : PipelineEnv) (maxIter : Nat)
    (input : String) (c f : Nat → String) :
    ((execute_pipeline env maxIter input).results.iterations =
      (execute_pipeline env maxIter input).results.review_feedback.length) ∧
    (pyStripEmpty input = false → (∀ n, env.stop n = false) → 0 < maxIter →
     (∀ r, r < maxIter → env.gen r = .ok (c r)) →
     (∀ r, r < maxIter → pyStripEmpty (c r) = false) →
     (∀ r, r < maxIter → env.rev r (c r) = (false, f r)) →
       (execute_pipeline env maxIter input).results.iterations = maxIter + 1) := by
  constructor
  · simp only [execute_pipeline]
    repeat' split
    all_goals rfl
  · intro hin hstop h0 hgen hne hrev
    have h := loopAux_no_approval (loopEnvOf env) maxIter c f maxIter 0 initLoopState
      (fun r h1 h2 => hstop (3 + r))
      (fun r h1 h2 => hgen r (by omega))
      (fun r h1 h2 => hne r (by omega))
      (fun r h1 h2 => hrev r (by omega))
    obtain ⟨b, hb, hfold, -, -⟩ := bestFold_spec c f maxIter h0
    have hrun : runLoop (loopEnvOf env) maxIter =
        ⟨some (c b), (List.range maxIter).map f ++ [sysNote maxIter (b + 1)],
          List.flatten ((List.range maxIter).map (roundCalls c)), maxIter⟩ := by
      rw [runLoop, h]
      simp only [initLoopState]
      rw [show ((⟨[], none, none, -1, 0⟩ : LoopState).bestCode,
          (⟨[], none, none, -1, 0⟩ : LoopState).bestScore,
          (⟨[], none, none, -1, 0⟩ : LoopState).bestIter) =
          ((none : Option String), (-1 : Int), (0 : Nat)) from rfl]
      rw [← List.range_eq_range', hfold]
      simp [finishNote]
    rcases hdepc : env.deployResult with e | d <;>
    · unfold execute_pipeline
      simp only [hstop, hin, Bool.false_eq_true, if_false, hrun, hdepc]
      simp

/-- Witness for C10: two unapproved rounds yield an iterations count of 3. -/
theorem C10_iterations_equals_feedback_length_witness :
    ((execute_pipeline noApproveEnv 2 "task").results.iterations =
      (execute_pipeline noApproveEnv 2 "task").results.review_feedback.length) ∧
    (execute_pipeline noApproveEnv 2 "task").results.iterations = 2 + 1 := by
  have h := C10_iterations_equals_feedback_length noApproveEnv 2 "task"
    (fun _ => "x = 1") (fun _ => "bad")
  exact ⟨h.1, h.2 (by decide) (fun n => rfl) (by omega) (fun r _ => rfl)
    (fun r _ => (by decide : pyStripEmpty "x = 1" = false)) (fun r _ => rfl)⟩

end MultiAgent
